import Mathlib

/-!
Shallow embedding of the transaction lifecycle engine of the ev-server
repository (file src/server/rest/router/api/TenantRouter.ts, class
TransactionService), together with theorems settling the frozen claims
about it.  External collaborators (stores, integrations, authorization,
formatting libraries) are passed as explicit parameters; optional JS
values become Option, JS string truthiness becomes a non-emptiness test,
and handlers that can throw return Except.
-/

set_option autoImplicit false

namespace EvServer

/-- Refund status enumeration (types/Refund.ts); the engine only
distinguishes CANCELLED from the rest. -/
inductive RefundStatus where
  | submitted
  | approved
  | cancelled
deriving DecidableEq, Repr

/-- The refundData sub-document of a transaction. -/
structure RefundData where
  refundId : String
  status : RefundStatus
deriving DecidableEq, Repr

/-- The billingData sub-document of a transaction. -/
structure BillingData where
  invoiceID : String
deriving DecidableEq, Repr

/-- The CDR recorded under ocpiData after a roaming push. -/
structure OcpiCdr where
  id : String
deriving DecidableEq, Repr

/-- The ocpiData sub-document of a transaction. -/
structure OcpiData where
  cdr : Option OcpiCdr
deriving DecidableEq, Repr

/-- A charging-station connector; currentTransactionID is the weak
back-reference to the transaction occupying it, 0 when free. -/
structure Connector where
  connectorId : Nat
  currentTransactionID : Nat
deriving DecidableEq, Repr

/-- A charging station as the engine sees it: an identifier and its
connectors. -/
structure ChargingStation where
  id : String
  connectors : List Connector
deriving DecidableEq, Repr

/-- A user as the engine sees it (denormalized display data). -/
structure User where
  id : String
  name : String
  firstName : String
deriving DecidableEq, Repr

/-- The stop sub-document of a completed transaction.  Numeric fields
are modelled as rationals (JS numbers used only through division and
rounding here). -/
structure TransactionStop where
  timestamp : Nat
  totalConsumptionWh : Rat
  totalDurationSecs : Rat
  totalInactivitySecs : Rat
  price : Rat
  priceUnit : String
deriving DecidableEq, Repr

/-- A transaction record.  chargeBox and user are the runtime-attached
snapshots (derived, optional); stop present means completed. -/
structure Transaction where
  id : Nat
  chargeBoxID : String
  connectorId : Nat
  userID : Option String
  timestamp : Nat
  issuer : Bool
  stop : Option TransactionStop
  refundData : Option RefundData
  billingData : Option BillingData
  ocpiData : Option OcpiData
  chargeBox : Option ChargingStation
  user : Option User
deriving DecidableEq, Repr

/-- The aggregated batch accounting returned by bulk operations. -/
structure ActionsResponse where
  inSuccess : Nat
  inError : Nat
deriving DecidableEq, Repr

/-- JS truthiness test used on the guard
transaction.refundData and not not transaction.refundData.refundId and
transaction.refundData.status not CANCELLED (TenantRouter.ts line 116
and, via the spec invariant, the refund integration). -/
def alreadyRefunded (t : Transaction) : Bool :=
  match t.refundData with
  | some rd => rd.refundId != "" && rd.status != RefundStatus.cancelled
  | none => false

/-- JS truthiness test for the guard
transaction.billingData and transaction.billingData.invoiceID
(TenantRouter.ts line 783). -/
def hasInvoice (t : Transaction) : Bool :=
  match t.billingData with
  | some bd => bd.invoiceID != ""
  | none => false

/-- Modelled from the spec: Utils.getConnectorFromID (utils module, not
under src) looks a connector up on the station by its connector id; the
station exposes connectors with a currentTransactionID back-reference. -/
def getConnectorFromID (station : ChargingStation) (connectorId : Nat) : Option Connector :=
  station.connectors.find? (fun c => c.connectorId == connectorId)

/-- Modelled from the spec: OCPPUtils.checkAndFreeChargingStationConnector
(not under src) releases the connector, clearing its transaction binding:
the currentTransactionID of the matching connector becomes unset (0). -/
def checkAndFreeChargingStationConnector (station : ChargingStation) (connectorId : Nat) : ChargingStation :=
  { station with
    connectors := station.connectors.map
      (fun c => if c.connectorId == connectorId then { c with currentTransactionID := 0 } else c) }

/-- Modelled from the spec: the refund integration method canBeDeleted
(integration code not under src).  Per the spec invariant, a transaction
with refundData.refundId set and status not CANCELLED is immutable
against deletion, so it is exactly the not-already-refunded transactions
that may be deleted. -/
def canBeDeleted (t : Transaction) : Bool :=
  !(alreadyRefunded t)

/-- The external collaborators of TransactionService.deleteTransactions:
the transaction store lookup, the optional refund integration (as its
canBeDeleted oracle), the presence of the billing integration, and the
store bulk delete returning the count actually removed. -/
structure DeleteEnv where
  getTransaction : Nat → Option Transaction
  refundConnector : Option (Transaction → Bool)
  billingImpl : Bool
  bulkDelete : List Nat → Nat

/-- Outcome of one loop iteration of deleteTransactions: either the id is
counted in inError, or it is marked for deletion, together with the
charging stations persisted while freeing a connector. -/
inductive StepOutcome where
  | err
  | del (saved : List ChargingStation)
deriving DecidableEq, Repr

/-- The refund-integration veto of TenantRouter.ts line 772: the
connector is present and canBeDeleted answers false. -/
def refundBlocked (env : DeleteEnv) (transaction : Transaction) : Bool :=
  match env.refundConnector with
  | some canDel => !(canDel transaction)
  | none => false

/-- The billing veto of TenantRouter.ts line 783: the billing
integration is present and the transaction carries an invoice. -/
def billingBlocked (env : DeleteEnv) (transaction : Transaction) : Bool :=
  env.billingImpl && hasInvoice transaction

/-- One iteration of the deleteTransactions loop (TenantRouter.ts lines
757 to 812): missing transaction, refund-integration veto and invoice
each count the id in error; an active transaction with a live station
snapshot whose matching connector still points at this transaction frees
that connector and persists the station; every eligible id is marked for
deletion. -/
def deleteStep (env : DeleteEnv) (transactionID : Nat) : StepOutcome :=
  match env.getTransaction transactionID with
  | none => StepOutcome.err
  | some transaction =>
    if refundBlocked env transaction then
      StepOutcome.err
    else if billingBlocked env transaction then
      StepOutcome.err
    else if transaction.stop.isNone then
      match transaction.chargeBox with
      | none => StepOutcome.del []
      | some chargeBox =>
        match getConnectorFromID chargeBox transaction.connectorId with
        | some foundConnector =>
          if transaction.id == foundConnector.currentTransactionID then
            StepOutcome.del [checkAndFreeChargingStationConnector chargeBox transaction.connectorId]
          else
            StepOutcome.del []
        | none => StepOutcome.del []
    else
      StepOutcome.del []

/-- Accumulated effect of the deleteTransactions loop over a batch. -/
structure DeleteScan where
  inError : Nat
  toDelete : List Nat
  savedStations : List ChargingStation
deriving DecidableEq, Repr

/-- The deleteTransactions loop over the whole batch, in input order. -/
def deleteScan (env : DeleteEnv) : List Nat → DeleteScan
  | [] => { inError := 0, toDelete := [], savedStations := [] }
  | transactionID :: rest =>
    let s := deleteScan env rest
    match deleteStep env transactionID with
    | StepOutcome.err =>
      { inError := s.inError + 1, toDelete := s.toDelete, savedStations := s.savedStations }
    | StepOutcome.del saved =>
      { inError := s.inError, toDelete := transactionID :: s.toDelete,
        savedStations := saved ++ s.savedStations }

/-- Result of TransactionService.deleteTransactions: the accounting
returned to the caller, the ids handed to the store bulk delete, and the
charging stations persisted along the way.  The per-item handling never
throws: the function is total. -/
structure DeleteRun where
  response : ActionsResponse
  deletedIDs : List Nat
  savedStations : List ChargingStation
deriving DecidableEq, Repr

/-- TransactionService.deleteTransactions (TenantRouter.ts lines 748 to
826): scan the batch, then bulk delete the marked ids in one store call;
inSuccess is the count the store reports. -/
def deleteTransactions (env : DeleteEnv) (transactionsIDs : List Nat) : DeleteRun :=
  let scan := deleteScan env transactionsIDs
  { response := { inSuccess := env.bulkDelete scan.toDelete, inError := scan.inError }
  , deletedIDs := scan.toDelete
  , savedStations := scan.savedStations }

/-- The three per-item ineligibility reasons of the deletion loop:
missing transaction, refund-integration veto (integration present and
canBeDeleted false), invoice (billing integration present and invoiceID
set). -/
def ineligible (env : DeleteEnv) (transactionID : Nat) : Bool :=
  match env.getTransaction transactionID with
  | none => true
  | some transaction => refundBlocked env transaction || billingBlocked env transaction

/-- The ways handleRefundTransactions can abort.  typeError models the
JavaScript TypeError raised when the missing-transaction log call
dereferences transaction.user and transaction.id on the absent record
(TenantRouter.ts lines 106 to 113). -/
inductive RefundFailure where
  | typeError
  | authError (transactionId : Nat)
  | userNotFound
  | noRefundImpl
deriving DecidableEq, Repr

/-- The success envelope of handleRefundTransactions: inError is present
as a key only when the shortfall is positive (lines 158 to 166). -/
structure RefundResponse where
  inSuccess : Nat
  inError : Option Nat
deriving DecidableEq, Repr

/-- The per-id collection loop of handleRefundTransactions
(TenantRouter.ts lines 102 to 140).  A missing transaction hits the
typeError branch: the Logging.logError argument object evaluates
transaction.user (and transaction.id) on the absent record, so the
iteration throws instead of continuing.  An already refunded transaction
is skipped.  A failed capability check aborts the whole batch.
Surviving transactions are collected in input order. -/
def collectTransactionsToRefund (store : Nat → Option Transaction) (canRefund : Transaction → Bool) :
    List Nat → Except RefundFailure (List Transaction)
  | [] => Except.ok []
  | transactionId :: rest =>
    match store transactionId with
    | none => Except.error RefundFailure.typeError
    | some transaction =>
      if alreadyRefunded transaction then
        collectTransactionsToRefund store canRefund rest
      else if !(canRefund transaction) then
        Except.error (RefundFailure.authError transaction.id)
      else
        (collectTransactionsToRefund store canRefund rest).map
          (fun transactionsToRefund => transaction :: transactionsToRefund)

/-- TransactionService.handleRefundTransactions (TenantRouter.ts lines
87 to 169): collect the refundable transactions, resolve the acting
user, require a refund implementation, pass the batch to it, and report
inSuccess as the number of transactions the integration refunded, with
inError only when some submitted transactions were not. -/
def handleRefundTransactions (store : Nat → Option Transaction) (canRefund : Transaction → Bool)
    (actingUser : Option User) (refundConnector : Option (List Transaction → List Transaction))
    (transactionIds : List Nat) : Except RefundFailure RefundResponse :=
  match collectTransactionsToRefund store canRefund transactionIds with
  | Except.error e => Except.error e
  | Except.ok transactionsToRefund =>
    match actingUser with
    | none => Except.error RefundFailure.userNotFound
    | some _user =>
      match refundConnector with
      | none => Except.error RefundFailure.noRefundImpl
      | some refund =>
        let refundedTransactions := refund transactionsToRefund
        let notRefundedTransactions := transactionsToRefund.length - refundedTransactions.length
        Except.ok
          { inSuccess := refundedTransactions.length
          , inError := if notRefundedTransactions > 0 then some notRefundedTransactions else none }

/-- The ways handlePushTransactionCdr can abort, one per precondition of
TenantRouter.ts lines 177 to 226. -/
inductive CdrFailure where
  | notAuthorized
  | transactionNotFound (transactionId : Nat)
  | chargingStationNotFound (chargeBoxID : String)
  | transactionNotFromTenant
  | noOcpiData
  | cdrAlreadyPushed
deriving DecidableEq, Repr

/-- Modelled from the spec: OCPPUtils.processOCPITransaction (not under
src) builds and sends the CDR through the roaming collaborator and
records it on the transaction; cdrId is the identifier the collaborator
assigns to the sent CDR. -/
def processOCPITransaction (cdrId : String) (t : Transaction) : Transaction :=
  { t with ocpiData := some { cdr := some { id := cdrId } } }

/-- State threaded through CDR pushes: the transaction store and the
number of CDRs sent to the roaming party so far. -/
structure CdrState where
  txStore : Nat → Option Transaction
  cdrsSent : Nat

/-- TransactionService.handlePushTransactionCdr (TenantRouter.ts lines
171 to 242): capability check, transaction and charging station must
exist, the transaction must be locally issued, must carry ocpiData, and
its CDR id must not already be set (truthy); then the CDR is built and
sent and the mutated transaction is persisted. -/
def handlePushTransactionCdr (stationStore : String → Option ChargingStation)
    (canUpdateTransaction : Bool) (cdrId : String) (st : CdrState) (transactionId : Nat) :
    Except CdrFailure CdrState :=
  if !canUpdateTransaction then
    Except.error CdrFailure.notAuthorized
  else
    match st.txStore transactionId with
    | none => Except.error (CdrFailure.transactionNotFound transactionId)
    | some transaction =>
      match stationStore transaction.chargeBoxID with
      | none => Except.error (CdrFailure.chargingStationNotFound transaction.chargeBoxID)
      | some _chargingStation =>
        if !transaction.issuer then
          Except.error CdrFailure.transactionNotFromTenant
        else
          match transaction.ocpiData with
          | none => Except.error CdrFailure.noOcpiData
          | some ocpiData =>
            if (match ocpiData.cdr with
                | some cdr => cdr.id != ""
                | none => false) then
              Except.error CdrFailure.cdrAlreadyPushed
            else
              let transaction2 := processOCPITransaction cdrId transaction
              Except.ok
                { txStore := fun i => if i == transaction2.id then some transaction2 else st.txStore i
                , cdrsSent := st.cdrsSent + 1 }

/-- Math.round of JavaScript on a rational: nearest integer, halves
rounding up. -/
def jsRound (q : Rat) : Int :=
  ⌊q + 1 / 2⌋

/-- The per-transaction row of TransactionService.convertToCSV
(TenantRouter.ts lines 729 to 744), one list element per column cell, in
order; the file joins cells with Constants.CSV_SEPARATOR.  The external
formatting collaborators are parameters: hash is Cypher.hash,
buildUserFullName is Utils.buildUserFullName, fmtDate and fmtTime are
the moment format calls on a timestamp, numStr is the JS
number-to-string conversion of the template literal. -/
def convertToCSVRow (hash : String → String) (buildUserFullName : User → String)
    (fmtDate fmtTime : Nat → String) (numStr : Rat → String)
    (transaction : Transaction) : List String :=
  [ toString transaction.id
  , transaction.chargeBoxID
  , toString transaction.connectorId
  , (match transaction.user with
     | some u => hash u.id
     | none => "")
  , (match transaction.user with
     | some u => buildUserFullName u
     | none => "")
  , fmtDate transaction.timestamp
  , fmtTime transaction.timestamp
  , (match transaction.stop with
     | some s => fmtDate s.timestamp
     | none => "")
  , (match transaction.stop with
     | some s => fmtTime s.timestamp
     | none => "")
  , (match transaction.stop with
     | some s => numStr ((jsRound (if s.totalConsumptionWh != 0 then s.totalConsumptionWh / 1000 else 0) : Int) : Rat)
     | none => "")
  , (match transaction.stop with
     | some s => numStr ((jsRound (if s.totalDurationSecs != 0 then s.totalDurationSecs / 60 else 0) : Int) : Rat)
     | none => "")
  , (match transaction.stop with
     | some s => numStr ((jsRound (if s.totalInactivitySecs != 0 then s.totalInactivitySecs / 60 else 0) : Int) : Rat)
     | none => "")
  , (match transaction.stop with
     | some s => numStr (((jsRound (s.price * 100) : Int) : Rat) / 100)
     | none => "")
  , (match transaction.stop with
     | some s => s.priceUnit
     | none => "") ]

/-- Modelled from the spec: the members of the TransactionInErrorType
enumeration (types/InError.ts, not under src), each a distinct string
token. -/
def LONG_INACTIVITY : String := "long_inactivity"

/-- Modelled from the spec: see LONG_INACTIVITY. -/
def NEGATIVE_ACTIVITY : String := "negative_activity"

/-- Modelled from the spec: see LONG_INACTIVITY. -/
def NEGATIVE_DURATION : String := "negative_duration"

/-- Modelled from the spec: see LONG_INACTIVITY. -/
def OVER_CONSUMPTION : String := "average_consumption_greater_than_connector_capacity"

/-- Modelled from the spec: see LONG_INACTIVITY. -/
def INVALID_START_DATE : String := "invalid_start_date"

/-- Modelled from the spec: see LONG_INACTIVITY. -/
def NO_CONSUMPTION : String := "no_consumption"

/-- Modelled from the spec: see LONG_INACTIVITY. -/
def MISSING_USER : String := "missing_user"

/-- Modelled from the spec: see LONG_INACTIVITY. -/
def MISSING_PRICE : String := "missing_price"

/-- Modelled from the spec: see LONG_INACTIVITY. -/
def NO_BILLING_DATA : String := "no_billing_data"

/-- The sanitized query parameters of the in-error request
(TransactionSecurity.filterTransactionsInErrorRequest); absent
parameters are none, and JS truthiness of a present one is
non-emptiness. -/
structure TransactionsInErrorRequest where
  ChargeBoxID : Option String
  UserID : Option String
  SiteAreaID : Option String
  SiteID : Option String
  StartDateTime : Option String
  EndDateTime : Option String
  ErrorType : Option String
  Search : Option String
  Limit : Nat
  Skip : Nat

/-- Pipe-splitting of a truthy optional parameter, as in
filteredRequest.X ? filteredRequest.X.split(pipe) : nothing. -/
def splitIfTruthy (s : Option String) : Option (List String) :=
  match s with
  | some v => if v != "" then some (v.splitOn "|") else none
  | none => none

/-- The external collaborators consulted while building the in-error
filter: the capability check, the active tenant components, and the
authorized-site-admin resolution. -/
structure InErrorQueryEnv where
  canListTransactionsInError : Bool
  organizationActive : Bool
  pricingActive : Bool
  billingActive : Bool
  getAuthorizedSiteAdminIDs : Option (List String) → List String

/-- The canonical store filter handleGetTransactionsInError builds
(TenantRouter.ts lines 665 to 703). -/
structure TransactionsInErrorFilter where
  issuer : Bool
  chargeBoxIDs : Option (List String)
  userIDs : Option (List String)
  siteAreaIDs : Option (List String)
  siteIDs : Option (List String)
  startDateTime : Option String
  endDateTime : Option String
  errorType : List String
  search : Option String

/-- Filter construction of handleGetTransactionsInError: issuer is set
to true unconditionally (line 669); the other fields mirror the
truthiness-guarded assignments of lines 670 to 700 and the search merge
of line 703. -/
def buildTransactionsInErrorFilter (env : InErrorQueryEnv)
    (filteredRequest : TransactionsInErrorRequest) : TransactionsInErrorFilter :=
  { issuer := true
  , chargeBoxIDs := splitIfTruthy filteredRequest.ChargeBoxID
  , userIDs := splitIfTruthy filteredRequest.UserID
  , siteAreaIDs := if env.organizationActive then splitIfTruthy filteredRequest.SiteAreaID else none
  , siteIDs :=
      if env.organizationActive then
        some (env.getAuthorizedSiteAdminIDs (splitIfTruthy filteredRequest.SiteID))
      else
        none
  , startDateTime := if (filteredRequest.StartDateTime.getD "") != "" then filteredRequest.StartDateTime else none
  , endDateTime := if (filteredRequest.EndDateTime.getD "") != "" then filteredRequest.EndDateTime else none
  , errorType :=
      match splitIfTruthy filteredRequest.ErrorType with
      | some types => types
      | none =>
        [LONG_INACTIVITY, NEGATIVE_ACTIVITY, NEGATIVE_DURATION, OVER_CONSUMPTION,
         INVALID_START_DATE, NO_CONSUMPTION, MISSING_USER]
        ++ (if env.pricingActive then [MISSING_PRICE] else [])
        ++ (if env.billingActive then [NO_BILLING_DATA] else [])
  , search := filteredRequest.Search }

/-- A paginated store result: the page of transactions and the overall
record count. -/
structure TransactionsDataResult where
  result : List Transaction
  count : Nat

/-- Failure of the in-error query: only the pre-flight capability check
can abort it. -/
inductive InErrorFailure where
  | notAuthorized
deriving DecidableEq, Repr

/-- TransactionService.handleGetTransactionsInError (TenantRouter.ts
lines 653 to 719): capability check, filter construction, store query
with the requested pagination, response redaction pass, then truncation
of the result array to 100 entries (lines 713 to 715, the JS
array-length assignment). -/
def handleGetTransactionsInError (env : InErrorQueryEnv)
    (storeQuery : TransactionsInErrorFilter → Nat → Nat → TransactionsDataResult)
    (redact : List Transaction → List Transaction)
    (filteredRequest : TransactionsInErrorRequest) : Except InErrorFailure TransactionsDataResult :=
  if !env.canListTransactionsInError then
    Except.error InErrorFailure.notAuthorized
  else
    let filter := buildTransactionsInErrorFilter env filteredRequest
    let transactions := storeQuery filter filteredRequest.Limit filteredRequest.Skip
    let shaped := { transactions with result := redact transactions.result }
    Except.ok
      { shaped with
        result := if shaped.result.length > 100 then shaped.result.take 100 else shaped.result }

/-! Concrete instances used by witnesses and counterexamples. -/

/-- A concrete acting user. -/
def userW : User :=
  { id := "u1", name := "Doe", firstName := "Jo" }

/-- A concrete stop record of a completed transaction. -/
def stop0 : TransactionStop :=
  { timestamp := 20, totalConsumptionWh := 1000, totalDurationSecs := 60,
    totalInactivitySecs := 0, price := 1, priceUnit := "EUR" }

/-- A completed transaction carrying an issued invoice. -/
def txInvoiced : Transaction :=
  { id := 1, chargeBoxID := "CB-1", connectorId := 1, userID := none, timestamp := 0,
    issuer := true, stop := some stop0, refundData := none,
    billingData := some { invoiceID := "INV-01" }, ocpiData := none,
    chargeBox := none, user := none }

/-- Deletion environment of a tenant with no billing and no refund
integration, storing only txInvoiced; the store bulk delete removes
every id it is given. -/
def envC2 : DeleteEnv :=
  { getTransaction := fun i => if i == 1 then some txInvoiced else none
  , refundConnector := none, billingImpl := false, bulkDelete := List.length }

/-- Same store as envC2 but with the billing integration present. -/
def envC2W : DeleteEnv :=
  { getTransaction := fun i => if i == 1 then some txInvoiced else none
  , refundConnector := none, billingImpl := true, bulkDelete := List.length }

/-- A completed transaction already refunded (refundId set, status
SUBMITTED). -/
def txRefunded501 : Transaction :=
  { id := 501, chargeBoxID := "CB-5", connectorId := 1, userID := none, timestamp := 0,
    issuer := true, stop := some stop0,
    refundData := some { refundId := "R1", status := RefundStatus.submitted },
    billingData := none, ocpiData := none, chargeBox := none, user := none }

/-- Deletion environment with no refund integration, storing only
txRefunded501. -/
def envC3 : DeleteEnv :=
  { getTransaction := fun i => if i == 501 then some txRefunded501 else none
  , refundConnector := none, billingImpl := false, bulkDelete := List.length }

/-- Transaction store holding only txRefunded501. -/
def store3W : Nat → Option Transaction :=
  fun i => if i == 501 then some txRefunded501 else none

/-- Deletion environment with the spec-modelled refund integration
present, storing only txRefunded501. -/
def envC3W : DeleteEnv :=
  { getTransaction := store3W, refundConnector := some canBeDeleted
  , billingImpl := false, bulkDelete := List.length }

/-- A clean completed transaction, eligible for deletion. -/
def txClean13 : Transaction :=
  { id := 13, chargeBoxID := "CB-13", connectorId := 1, userID := none, timestamp := 0,
    issuer := true, stop := some stop0, refundData := none, billingData := none,
    ocpiData := none, chargeBox := none, user := none }

/-- Deletion environment with both integrations present: id 12 is
invoiced, id 13 is clean, id 11 is missing. -/
def envC4 : DeleteEnv :=
  { getTransaction := fun i =>
      if i == 12 then some { txInvoiced with id := 12 }
      else if i == 13 then some txClean13
      else none
  , refundConnector := some canBeDeleted, billingImpl := true, bulkDelete := List.length }

/-- Station S1 whose connector 1 is occupied by transaction 502. -/
def cb502 : ChargingStation :=
  { id := "S1", connectors := [{ connectorId := 1, currentTransactionID := 502 }] }

/-- An active transaction (no stop) occupying connector 1 of station S1,
with the live station snapshot attached. -/
def tx502 : Transaction :=
  { id := 502, chargeBoxID := "S1", connectorId := 1, userID := none, timestamp := 0,
    issuer := true, stop := none, refundData := none, billingData := none,
    ocpiData := none, chargeBox := some cb502, user := none }

/-- Deletion environment storing only the active transaction tx502. -/
def envC5 : DeleteEnv :=
  { getTransaction := fun i => if i == 502 then some tx502 else none
  , refundConnector := none, billingImpl := false, bulkDelete := List.length }

/-- A concrete charging station for the CDR push scenario. -/
def cbC : ChargingStation :=
  { id := "CB-60", connectors := [] }

/-- Station store answering every lookup with cbC. -/
def stationStoreC : String → Option ChargingStation :=
  fun _ => some cbC

/-- A locally issued transaction with roaming context and no CDR pushed
yet. -/
def txCdr : Transaction :=
  { id := 60, chargeBoxID := "CB-60", connectorId := 1, userID := none, timestamp := 0,
    issuer := true, stop := some stop0, refundData := none, billingData := none,
    ocpiData := some { cdr := none }, chargeBox := none, user := none }

/-- Initial CDR-push state: txCdr stored, no CDR sent yet. -/
def st0C : CdrState :=
  { txStore := fun i => if i == 60 then some txCdr else none, cdrsSent := 0 }

/-- txCdr after the roaming collaborator recorded CDR-1 on it. -/
def txCdr2 : Transaction :=
  processOCPITransaction "CDR-1" txCdr

/-- The state after the first successful CDR push of txCdr. -/
def st1C : CdrState :=
  { txStore := fun i => if i == txCdr2.id then some txCdr2 else st0C.txStore i
  , cdrsSent := st0C.cdrsSent + 1 }

/-- Transaction store holding only an already refunded transaction under
id 9. -/
def store9 : Nat → Option Transaction :=
  fun i => if i == 9 then some { txRefunded501 with id := 9 } else none

/-- Concrete formatting collaborators for the CSV row. -/
def hashC : String → String := fun _ => "H"

/-- See hashC. -/
def fullNameC : User → String := fun _ => "FN"

/-- See hashC. -/
def fmtDateC : Nat → String := fun _ => "2020-01-01"

/-- See hashC. -/
def fmtTimeC : Nat → String := fun _ => "08:00:00"

/-- See hashC. -/
def numStrC : Rat → String := fun _ => "0"

/-- An active transaction (stop absent) with a user attached, for the
CSV export row. -/
def tx501csv : Transaction :=
  { id := 501, chargeBoxID := "CS", connectorId := 1, userID := some "u1", timestamp := 5,
    issuer := true, stop := none, refundData := none, billingData := none,
    ocpiData := none, chargeBox := none, user := some userW }

/-- In-error query environment: authorized caller, no optional tenant
component active. -/
def envQ : InErrorQueryEnv :=
  { canListTransactionsInError := true, organizationActive := false,
    pricingActive := false, billingActive := false,
    getAuthorizedSiteAdminIDs := fun _ => [] }

/-- Store query returning 150 matching transactions, more than the
response ceiling. -/
def storeQueryW : TransactionsInErrorFilter → Nat → Nat → TransactionsDataResult :=
  fun _ _ _ => { result := List.replicate 150 txClean13, count := 150 }

/-- An in-error request with a page size well above the ceiling. -/
def reqW : TransactionsInErrorRequest :=
  { ChargeBoxID := none, UserID := none, SiteAreaID := none, SiteID := none,
    StartDateTime := none, EndDateTime := none, ErrorType := none, Search := none,
    Limit := 500, Skip := 0 }

/-- The response the in-error query produces for storeQueryW and reqW. -/
def resW : TransactionsDataResult :=
  { result := (List.replicate 150 txClean13).take 100, count := 150 }

/-! Helper lemmas about the deletion loop, shared by several claims. -/

/-- An ineligible id takes one of the three error branches of the loop. -/
theorem deleteStep_err_of {env : DeleteEnv} {i : Nat} (h : ineligible env i = true) :
    deleteStep env i = StepOutcome.err := by
  cases hg : env.getTransaction i with
  | none => simp [deleteStep, hg]
  | some t =>
    simp only [ineligible, hg] at h
    rcases Bool.or_eq_true_iff.mp h with h1 | h2
    · simp [deleteStep, hg, h1]
    · simp [deleteStep, hg, h2, ite_self]

/-- An eligible id is always marked for deletion, whatever the connector
release branch does. -/
theorem deleteStep_del_of {env : DeleteEnv} {i : Nat} (h : ineligible env i = false) :
    ∃ saved, deleteStep env i = StepOutcome.del saved := by
  cases hg : env.getTransaction i with
  | none => simp [ineligible, hg] at h
  | some t =>
    simp only [ineligible, hg] at h
    obtain ⟨h1, h2⟩ := Bool.or_eq_false_iff.mp h
    simp only [deleteStep, hg, h1, h2, Bool.false_eq_true, if_false]
    repeat
      first
      | exact ⟨_, rfl⟩
      | split

/-- The loop accounting: inError counts exactly the ineligible ids, and
together with the marked ids it exhausts the batch. -/
theorem deleteScan_counts (env : DeleteEnv) (ids : List Nat) :
    (deleteScan env ids).inError = (ids.filter (fun i => ineligible env i)).length ∧
    (deleteScan env ids).inError + (deleteScan env ids).toDelete.length = ids.length := by
  induction ids with
  | nil => simp [deleteScan]
  | cons a rest ih =>
    cases hi : ineligible env a with
    | true =>
      have hstep := deleteStep_err_of hi
      simp only [deleteScan, hstep, List.filter_cons, hi, if_true, List.length_cons]
      constructor
      · rw [ih.1]
      · omega
    | false =>
      obtain ⟨saved, hstep⟩ := deleteStep_del_of hi
      simp only [deleteScan, hstep, List.filter_cons, hi, List.length_cons, Bool.false_eq_true,
        if_false]
      constructor
      · exact ih.1
      · have := ih.2
        omega

/-- An id whose step is marked for deletion ends up in the marked list,
and every station its step persisted ends up in the saved list. -/
theorem deleteScan_mem_of_del {env : DeleteEnv} {id : Nat} {saved : List ChargingStation}
    (h : deleteStep env id = StepOutcome.del saved) :
    ∀ ids, id ∈ ids →
      id ∈ (deleteScan env ids).toDelete ∧
      ∀ s ∈ saved, s ∈ (deleteScan env ids).savedStations := by
  intro ids hmem
  induction ids with
  | nil => cases hmem
  | cons a rest ih =>
    rcases List.mem_cons.mp hmem with heq | hmem2
    · subst heq
      simp only [deleteScan, h]
      exact ⟨List.mem_cons_self _ _, fun s hs => List.mem_append_left _ hs⟩
    · have ihres := ih hmem2
      cases hstep : deleteStep env a with
      | err =>
        simp only [deleteScan, hstep]
        exact ihres
      | del saved2 =>
        simp only [deleteScan, hstep]
        exact ⟨List.mem_cons_of_mem _ ihres.1,
          fun s hs => List.mem_append_right _ (ihres.2 s hs)⟩

/-- An id whose step errors is never in the marked list. -/
theorem deleteScan_not_mem_of_err {env : DeleteEnv} {id : Nat}
    (h : deleteStep env id = StepOutcome.err) :
    ∀ ids, id ∉ (deleteScan env ids).toDelete := by
  intro ids
  induction ids with
  | nil => simp [deleteScan]
  | cons a rest ih =>
    cases hstep : deleteStep env a with
    | err =>
      simp only [deleteScan, hstep]
      exact ih
    | del saved =>
      simp only [deleteScan, hstep, List.mem_cons]
      rintro (heq | hmem2)
      · subst heq
        exact StepOutcome.noConfusion (h.symm.trans hstep)
      · exact ih hmem2

/-- An id whose step errors makes the error count positive. -/
theorem deleteScan_inError_pos_of_err {env : DeleteEnv} {id : Nat}
    (h : deleteStep env id = StepOutcome.err) :
    ∀ ids, id ∈ ids → 1 ≤ (deleteScan env ids).inError := by
  intro ids hmem
  induction ids with
  | nil => cases hmem
  | cons a rest ih =>
    rcases List.mem_cons.mp hmem with heq | hmem2
    · subst heq
      simp only [deleteScan, h]
      omega
    · cases hstep : deleteStep env a with
      | err =>
        simp only [deleteScan, hstep]
        omega
      | del saved =>
        simp only [deleteScan, hstep]
        exact ih hmem2

/-! Claim theorems. -/

/-- Claim C1 (code bug, evaluation at the failing input): submitting a
refund batch whose only id is missing does not skip-and-log as the claim
requires; the per-id handling raises the TypeError of dereferencing
transaction.user on the absent record, which aborts the whole batch. -/
theorem refund_missing_transaction_type_error :
    handleRefundTransactions (fun _ => none) (fun _ => true) (some userW)
        (some (fun l => l)) [7]
      = Except.error RefundFailure.typeError := rfl

/-- Claim C9 (code bug, evaluation at the failing input): a batch whose
ids are one already-refunded transaction and one missing id does not
reach the refund integration with an empty list; the missing id raises
the TypeError of the logging dereference instead. -/
theorem refund_batch_missing_id_aborts :
    handleRefundTransactions store9 (fun _ => true) (some userW)
        (some (fun l => l)) [9, 777]
      = Except.error RefundFailure.typeError := rfl

/-- Claim C2, counterexample: with no billing integration configured,
the invoiced transaction txInvoiced is deleted (inSuccess 1, inError 0),
refuting that deletion rejects invoiced transactions for every
configuration of the tenant integrations. -/
theorem invoiced_transaction_deleted_without_billing_cex :
    (deleteTransactions envC2 [1]).response = { inSuccess := 1, inError := 0 } ∧
    1 ∈ (deleteTransactions envC2 [1]).deletedIDs := by
  decide

/-- Claim C2 as amended: when the billing integration is present, every
transaction with a non-empty billingData.invoiceID is rejected by bulk
deletion, regardless of its refund state: its id errors, is never in the
deleted list, and makes inError positive whenever it is in the batch. -/
theorem invoiced_transaction_rejected_when_billing_present
    (env : DeleteEnv) (id : Nat) (t : Transaction)
    (hstore : env.getTransaction id = some t)
    (hbilling : env.billingImpl = true)
    (hinv : hasInvoice t = true) :
    deleteStep env id = StepOutcome.err ∧
    (∀ ids, id ∉ (deleteTransactions env ids).deletedIDs) ∧
    (∀ ids, id ∈ ids → 1 ≤ (deleteTransactions env ids).response.inError) := by
  have hstep : deleteStep env id = StepOutcome.err := by
    apply deleteStep_err_of
    simp [ineligible, hstore, billingBlocked, hbilling, hinv]
  refine ⟨hstep, fun ids => ?_, fun ids hmem => ?_⟩
  · simpa [deleteTransactions] using deleteScan_not_mem_of_err hstep ids
  · simpa [deleteTransactions] using deleteScan_inError_pos_of_err hstep ids hmem

/-- Witness for the amended claim C2 at a concrete input. -/
theorem invoiced_transaction_rejected_when_billing_present_witness :
    1 ∉ (deleteTransactions envC2W [1]).deletedIDs ∧
    1 ≤ (deleteTransactions envC2W [1]).response.inError := by
  have h := invoiced_transaction_rejected_when_billing_present envC2W 1 txInvoiced rfl rfl
    (by decide)
  exact ⟨h.2.1 [1], h.2.2 [1] (by decide)⟩

/-- Claim C3, counterexample: with no refund integration configured,
deletion of the already refunded transaction txRefunded501 succeeds
(inSuccess 1, inError 0) and the id is deleted, refuting that deletion
always rejects refunded transactions. -/
theorem refunded_transaction_deleted_without_connector_cex :
    (deleteTransactions envC3 [501]).response = { inSuccess := 1, inError := 0 } ∧
    501 ∈ (deleteTransactions envC3 [501]).deletedIDs := by
  decide

/-- Claim C3 as amended: a transaction with a non-empty refundId and
status not CANCELLED is always skipped by refund submission (the id
contributes nothing: the loop continues without error and the
transaction is not collected for the integration); deletion rejects it
provided the refund integration is configured, in which case the id
errors, is never deleted, and makes inError positive whenever it is in
the batch. -/
theorem refunded_transaction_skipped_and_rejected
    (store : Nat → Option Transaction) (canRefund : Transaction → Bool)
    (id : Nat) (t : Transaction) (env : DeleteEnv)
    (hstore : store id = some t)
    (href : alreadyRefunded t = true)
    (henvstore : env.getTransaction id = some t)
    (henvref : env.refundConnector = some canBeDeleted) :
    (∀ rest, collectTransactionsToRefund store canRefund (id :: rest)
        = collectTransactionsToRefund store canRefund rest) ∧
    deleteStep env id = StepOutcome.err ∧
    (∀ ids, id ∉ (deleteTransactions env ids).deletedIDs) ∧
    (∀ ids, id ∈ ids → 1 ≤ (deleteTransactions env ids).response.inError) := by
  have hstep : deleteStep env id = StepOutcome.err := by
    apply deleteStep_err_of
    simp [ineligible, henvstore, refundBlocked, henvref, canBeDeleted, href]
  refine ⟨fun rest => ?_, hstep, fun ids => ?_, fun ids hmem => ?_⟩
  · simp [collectTransactionsToRefund, hstore, href]
  · simpa [deleteTransactions] using deleteScan_not_mem_of_err hstep ids
  · simpa [deleteTransactions] using deleteScan_inError_pos_of_err hstep ids hmem

/-- Witness for the amended claim C3 at a concrete input. -/
theorem refunded_transaction_skipped_and_rejected_witness :
    collectTransactionsToRefund store3W (fun _ => true) [501]
        = collectTransactionsToRefund store3W (fun _ => true) [] ∧
    501 ∉ (deleteTransactions envC3W [501]).deletedIDs ∧
    1 ≤ (deleteTransactions envC3W [501]).response.inError := by
  have h := refunded_transaction_skipped_and_rejected store3W (fun _ => true) 501 txRefunded501
    envC3W rfl (by decide) rfl rfl
  exact ⟨h.1 [], h.2.2.1 [501], h.2.2.2 [501] (by decide)⟩

/-- Claim C4: when the store bulk delete removes every id it is given,
a batch of N ids with M ineligible ones (missing, vetoed by the refund
integration, or invoiced) yields inError M and inSuccess N - M; the
per-item handling is total, so no item aborts the batch. -/
theorem deleteTransactions_batch_accounting (env : DeleteEnv) (ids : List Nat)
    (hbulk : ∀ l, env.bulkDelete l = l.length) :
    (deleteTransactions env ids).response.inError
        = (ids.filter (fun i => ineligible env i)).length ∧
    (deleteTransactions env ids).response.inSuccess
        = ids.length - (ids.filter (fun i => ineligible env i)).length := by
  obtain ⟨h1, h2⟩ := deleteScan_counts env ids
  constructor
  · simpa [deleteTransactions] using h1
  · have hs : (deleteTransactions env ids).response.inSuccess
        = (deleteScan env ids).toDelete.length := by
      simp [deleteTransactions, hbulk]
    rw [hs]
    omega

/-- Witness for claim C4: batch of three ids, one missing and one
invoiced, yields inError 2 and inSuccess 1. -/
theorem deleteTransactions_batch_accounting_witness :
    (deleteTransactions envC4 [11, 12, 13]).response.inError = 2 ∧
    (deleteTransactions envC4 [11, 12, 13]).response.inSuccess = 1 := by
  have h := deleteTransactions_batch_accounting envC4 [11, 12, 13] (fun l => rfl)
  have hm : (([11, 12, 13] : List Nat).filter (fun i => ineligible envC4 i)).length = 2 := by
    decide
  rw [hm] at h
  exact h

/-- Claim C5: deleting an active transaction that occupies the connector
of its attached station snapshot deletes the id, persists the released
station, and the released connector no longer references the deleted
transaction id. -/
theorem delete_active_transaction_frees_connector
    (env : DeleteEnv) (id : Nat) (t : Transaction) (cb : ChargingStation) (conn : Connector)
    (ids : List Nat)
    (hstore : env.getTransaction id = some t)
    (hstop : t.stop = none)
    (hcb : t.chargeBox = some cb)
    (hconn : getConnectorFromID cb t.connectorId = some conn)
    (hcur : conn.currentTransactionID = t.id)
    (helig : ineligible env id = false)
    (hmem : id ∈ ids)
    (hpos : t.id ≠ 0) :
    id ∈ (deleteTransactions env ids).deletedIDs ∧
    checkAndFreeChargingStationConnector cb t.connectorId
        ∈ (deleteTransactions env ids).savedStations ∧
    ∀ c ∈ (checkAndFreeChargingStationConnector cb t.connectorId).connectors,
      c.connectorId = t.connectorId → c.currentTransactionID ≠ t.id := by
  have hb : (refundBlocked env t || billingBlocked env t) = false := by
    simpa [ineligible, hstore] using helig
  obtain ⟨hb1, hb2⟩ := Bool.or_eq_false_iff.mp hb
  have hstep : deleteStep env id
      = StepOutcome.del [checkAndFreeChargingStationConnector cb t.connectorId] := by
    simp [deleteStep, hstore, hb1, hb2, hstop, hcb, hconn, hcur]
  have hm := deleteScan_mem_of_del hstep ids hmem
  refine ⟨?_, ?_, ?_⟩
  · simpa [deleteTransactions] using hm.1
  · simpa [deleteTransactions] using hm.2 _ (List.mem_singleton.mpr rfl)
  · intro c hc hcid
    unfold checkAndFreeChargingStationConnector at hc
    simp only [List.mem_map] at hc
    obtain ⟨c0, hc0, rfl⟩ := hc
    by_cases h0 : c0.connectorId == t.connectorId
    · simp only [h0, if_true]
      exact Ne.symm hpos
    · simp only [h0, if_false] at hcid ⊢
      exact absurd hcid (by simpa using h0)

/-- Witness for claim C5 at the concrete scenario: transaction 502 on
station S1 connector 1. -/
theorem delete_active_transaction_frees_connector_witness :
    502 ∈ (deleteTransactions envC5 [502]).deletedIDs ∧
    checkAndFreeChargingStationConnector cb502 tx502.connectorId
        ∈ (deleteTransactions envC5 [502]).savedStations ∧
    ∀ c ∈ (checkAndFreeChargingStationConnector cb502 tx502.connectorId).connectors,
      c.connectorId = tx502.connectorId → c.currentTransactionID ≠ tx502.id :=
  delete_active_transaction_frees_connector envC5 502 tx502 cb502
    { connectorId := 1, currentTransactionID := 502 } [502]
    rfl rfl rfl (by decide) (by decide) (by decide) (by decide) (by decide)

/-- Claim C6: CDR push is idempotent by rejection: if a push of a stored
transaction succeeds, pushing the same id again on the resulting state
fails with the already-pushed conflict before any CDR is sent, and the
overall number of CDRs sent is exactly one more than before the first
push. -/
theorem push_transaction_cdr_idempotent_by_rejection
    (stationStore : String → Option ChargingStation) (cdrId : String)
    (st st2 : CdrState) (transactionId : Nat) (t : Transaction)
    (hstore : st.txStore transactionId = some t)
    (hid : t.id = transactionId)
    (hcdr : cdrId ≠ "")
    (h1 : handlePushTransactionCdr stationStore true cdrId st transactionId = Except.ok st2) :
    handlePushTransactionCdr stationStore true cdrId st2 transactionId
        = Except.error CdrFailure.cdrAlreadyPushed ∧
    st2.cdrsSent = st.cdrsSent + 1 := by
  unfold handlePushTransactionCdr at h1
  simp only [Bool.not_true, Bool.false_eq_true, if_false, hstore] at h1
  cases hstat : stationStore t.chargeBoxID with
  | none => rw [hstat] at h1; simp at h1
  | some cs =>
    rw [hstat] at h1
    cases hiss : t.issuer with
    | false => rw [hiss] at h1; simp at h1
    | true =>
      rw [hiss] at h1
      simp only [Bool.not_true, Bool.false_eq_true, if_false] at h1
      cases hocpi : t.ocpiData with
      | none => rw [hocpi] at h1; simp at h1
      | some od =>
        rw [hocpi] at h1
        cases hflag : (match od.cdr with
          | some cdr => cdr.id != ""
          | none => false) with
        | true => simp only [hflag, if_true] at h1; simp at h1
        | false =>
          simp only [hflag, Bool.false_eq_true, if_false, Except.ok.injEq] at h1
          subst h1
          constructor
          · unfold handlePushTransactionCdr
            simp [processOCPITransaction, hid, hstat, hiss, hcdr]
          · rfl

/-- Witness for claim C6 at a concrete first push of txCdr. -/
theorem push_transaction_cdr_idempotent_by_rejection_witness :
    handlePushTransactionCdr stationStoreC true "CDR-1" st1C 60
        = Except.error CdrFailure.cdrAlreadyPushed ∧
    st1C.cdrsSent = st0C.cdrsSent + 1 :=
  push_transaction_cdr_idempotent_by_rejection stationStoreC "CDR-1" st0C st1C 60 txCdr
    rfl rfl (by decide) rfl

/-- Claim C7, counterexample: for a concrete active transaction the CSV
row has 14 cells of which exactly 7 are empty, so it cannot contain nine
empty stop-derived columns alongside seven well-formed ones. -/
theorem csv_missing_stop_not_nine_empty_cex :
    ((convertToCSVRow hashC fullNameC fmtDateC fmtTimeC numStrC tx501csv).filter
        (fun c => c == "")).length = 7 ∧
    (convertToCSVRow hashC fullNameC fmtDateC fmtTimeC numStrC tx501csv).length = 14 ∧
    ¬ 9 ≤ ((convertToCSVRow hashC fullNameC fmtDateC fmtTimeC numStrC tx501csv).filter
        (fun c => c == "")).length := by
  decide

/-- Claim C7 as amended: for every transaction without a stop record the
CSV row consists of the seven well-formed leading cells (id, station,
connector, hashed user id, user full name, start date, start time) and
empty strings for all seven stop-derived columns. -/
theorem csv_row_missing_stop (hash : String → String) (buildUserFullName : User → String)
    (fmtDate fmtTime : Nat → String) (numStr : Rat → String) (t : Transaction)
    (hstop : t.stop = none) :
    convertToCSVRow hash buildUserFullName fmtDate fmtTime numStr t
      = [toString t.id, t.chargeBoxID, toString t.connectorId,
         (match t.user with
          | some u => hash u.id
          | none => ""),
         (match t.user with
          | some u => buildUserFullName u
          | none => ""),
         fmtDate t.timestamp, fmtTime t.timestamp,
         "", "", "", "", "", "", ""] := by
  simp [convertToCSVRow, hstop]

/-- Witness for the amended claim C7 at a concrete transaction. -/
theorem csv_row_missing_stop_witness :
    convertToCSVRow hashC fullNameC fmtDateC fmtTimeC numStrC tx501csv
      = ["501", "CS", "1", "H", "FN", "2020-01-01", "08:00:00",
         "", "", "", "", "", "", ""] := by
  rw [csv_row_missing_stop hashC fullNameC fmtDateC fmtTimeC numStrC tx501csv rfl]
  rfl

/-- Claim C8: whatever the store returns and whatever page size the
caller requested, a successful in-error query response carries at most
100 transactions. -/
theorem transactions_in_error_result_capped (env : InErrorQueryEnv)
    (storeQuery : TransactionsInErrorFilter → Nat → Nat → TransactionsDataResult)
    (redact : List Transaction → List Transaction)
    (filteredRequest : TransactionsInErrorRequest) (res : TransactionsDataResult)
    (h : handleGetTransactionsInError env storeQuery redact filteredRequest = Except.ok res) :
    res.result.length ≤ 100 := by
  unfold handleGetTransactionsInError at h
  cases hc : env.canListTransactionsInError with
  | false => rw [hc] at h; simp at h
  | true =>
    rw [hc] at h
    simp only [Bool.not_true, Bool.false_eq_true, if_false, Except.ok.injEq] at h
    subst h
    simp only []
    split
    · simp [List.length_take]
    · omega

set_option maxRecDepth 4000 in
/-- Witness for claim C8: the store returns 150 matching transactions
and the response carries at most 100. -/
theorem transactions_in_error_result_capped_witness :
    resW.result.length ≤ 100 :=
  transactions_in_error_result_capped envQ storeQueryW (fun l => l) reqW resW rfl

/-- Claim C10: the filter handleGetTransactionsInError sends to the
store has issuer true for every environment and every request, so the
store is only ever asked for locally issued transactions. -/
theorem in_error_filter_issuer_always_true (env : InErrorQueryEnv)
    (filteredRequest : TransactionsInErrorRequest) :
    (buildTransactionsInErrorFilter env filteredRequest).issuer = true := rfl

end EvServer
